import Mathlib

/-!
Verification of `scripts/ci/check_perf_regressions.py`.

The script is a CI threshold gate: it reads a benchmark report and a
thresholds file (both JSON), derives two worst-case P95 metrics
(`frame_p95` from the metric named `frameDurationCpuMs`, `recompose_p95`
from every metric whose name contains the substring `compose:recompose`),
compares them against the thresholds and terminates with exit code
0 (pass), 1 (regression) or 2 (usage/data error).

We embed the script shallowly: Python floats become rationals `ℚ`, JSON
dictionaries become association lists or records of the relevant keys,
printed lines become a `List String` accumulated in the outcome, and an
uncaught Python exception becomes the `Outcome.raised` constructor.
-/

namespace CheckPerfRegressions

/-- A value in an entry's `metrics` mapping.  The script only inspects
whether the value is a dict (`isinstance(value, dict)`) and, if so, its
`"P95"` field (`value.get("P95", 0)`), so we embed a metric value as
either a dict carrying an optional numeric `P95` field, or a non-dict. -/
inductive MetricVal where
  | dict (p95 : Option ℚ)
  | nonDict
deriving DecidableEq

/-- One benchmark entry: its `metrics` mapping, embedded as an association
list from metric name to value (Python dict iteration order is insertion
order, which the list order represents).  An entry without a `metrics`
key behaves as `benchmark.get("metrics", {})`, i.e. the empty mapping. -/
structure Benchmark where
  metrics : List (String × MetricVal)
deriving DecidableEq

/-- A parsed JSON document, restricted to the keys the script reads:
`report.get("benchmarks", [])` on the report and the required keys
`thresholds["frameDurationCpuMsP95"]`, `thresholds["recompositionCountP95"]`
on the thresholds file.  `none` models an absent key. -/
structure JsonDoc where
  benchmarks : Option (List Benchmark)
  frameDurationCpuMsP95 : Option ℚ
  recompositionCountP95 : Option ℚ
deriving DecidableEq

/-- Content of a file on disk: either text that parses as structured data
(`json.loads` succeeds) or malformed text (`json.loads` raises). -/
inductive FileContent where
  | wellFormed (d : JsonDoc)
  | malformed
deriving DecidableEq

/-- The file system visible to the script: paths mapped to contents.  A
path not in the list does not exist. -/
def FileSys := List (String × FileContent)

/-- Embeds `Path.exists` and `Path.read_text`: look a path up in the
file system. -/
def lookupFile (fs : FileSys) (p : String) : Option FileContent :=
  (fs.find? (fun e => e.1 == p)).map (fun e => e.2)

/-- Python exceptions the script can let escape (it catches nothing). -/
inductive PyError where
  | parseError
  | fileNotFound
  | keyError
deriving DecidableEq

/-- How an invocation ends: `exited code output` for `sys.exit(code)` /
falling off the end (code 0), with the lines printed to stdout, or
`raised e output` for an uncaught exception after printing `output`. -/
inductive Outcome where
  | exited (code : Nat) (output : List String)
  | raised (e : PyError) (output : List String)
deriving DecidableEq

/-- Tests whether the first character list starts the second. -/
def leadsWith : List Char → List Char → Bool
  | [], _ => true
  | _ :: _, [] => false
  | a :: as, b :: bs => a == b && leadsWith as bs

/-- Substring containment on character lists. -/
def containsSub (needle : List Char) : List Char → Bool
  | [] => leadsWith needle []
  | c :: cs => leadsWith needle (c :: cs) || containsSub needle cs

/-- Python's `needle in haystack` on strings: substring containment. -/
def strContains (needle haystack : String) : Bool :=
  containsSub needle.data haystack.data

/-- Embeds `metrics.get(name)`: dictionary lookup in the metrics
mapping. -/
def lookupMetric (ms : List (String × MetricVal)) (name : String) :
    Option MetricVal :=
  (ms.find? (fun e => e.1 == name)).map (fun e => e.2)

/-- One loop iteration's update of `frame_p95` for one benchmark entry:
```
frame_metric = metrics.get("frameDurationCpuMs")
if isinstance(frame_metric, dict):
    frame_p95 = max(frame_p95 or 0, float(frame_metric.get("P95", 0)))
```
`frame_p95 or 0` yields 0 when `frame_p95` is `None` (and also when it is
`0.0`, which is the same number), i.e. `acc.getD 0`. -/
def stepFrame (acc : Option ℚ) (b : Benchmark) : Option ℚ :=
  match lookupMetric b.metrics "frameDurationCpuMs" with
  | some (MetricVal.dict p) => some (max (acc.getD 0) (p.getD 0))
  | _ => acc

/-- The inner-loop update of `recompose_p95` for one `(key, value)` pair:
```
if "compose:recompose" in key and isinstance(value, dict):
    recompose_p95 = max(recompose_p95 or 0, float(value.get("P95", 0)))
```
-/
def stepMetric (acc : Option ℚ) (kv : String × MetricVal) : Option ℚ :=
  match kv.2 with
  | MetricVal.dict p =>
      if strContains "compose:recompose" kv.1 then
        some (max (acc.getD 0) (p.getD 0))
      else acc
  | MetricVal.nonDict => acc

/-- One loop iteration's update of `recompose_p95` for one benchmark
entry: `for key, value in metrics.items(): ...`. -/
def stepRecompose (acc : Option ℚ) (b : Benchmark) : Option ℚ :=
  b.metrics.foldl stepMetric acc

/-- The whole `for benchmark in benchmarks:` loop, starting from
`frame_p95 = None; recompose_p95 = None` and returning the pair
`(frame_p95, recompose_p95)` after all entries are scanned. -/
def computeP95s (bs : List Benchmark) : Option ℚ × Option ℚ :=
  bs.foldl (fun acc b => (stepFrame acc.1 b, stepRecompose acc.2 b))
    (none, none)

/-- Python's `str` of the float values the script prints.  An
integer-valued float renders with a trailing `.0` (`str(10.0) = "10.0"`,
`str(-5.0) = "-5.0"`); for non-integral rationals we keep the rational's
own rendering, which the verified runs never reach. -/
def pyFloatStr (q : ℚ) : String :=
  if q.den = 1 then toString q.num ++ ".0" else toString q

/-- Lines 20–53 of the script: everything after both files parsed. -/
def runGate (report thresholds : JsonDoc) : Outcome :=
  let benchmarks := report.benchmarks.getD []
  if benchmarks.isEmpty then
    Outcome.exited 2 ["No benchmark entries found"]
  else
    match computeP95s benchmarks with
    | (none, _) =>
        Outcome.exited 2
          ["Missing required metrics (frameDurationCpuMs or compose:recompose)"]
    | (some _, none) =>
        Outcome.exited 2
          ["Missing required metrics (frameDurationCpuMs or compose:recompose)"]
    | (some f, some r) =>
        let printed := ["frameDurationCpuMs P95 = " ++ pyFloatStr f,
                        "recomposition P95 = " ++ pyFloatStr r]
        match thresholds.frameDurationCpuMsP95 with
        | none => Outcome.raised PyError.keyError printed
        | some ft =>
            if f > ft then
              Outcome.exited 1 (printed ++ ["Frame-time regression detected"])
            else
              match thresholds.recompositionCountP95 with
              | none => Outcome.raised PyError.keyError printed
              | some rt =>
                  if r > rt then
                    Outcome.exited 1
                      (printed ++ ["Recomposition-count regression detected"])
                  else
                    Outcome.exited 0 (printed ++ ["Performance gate passed"])

/-- Lines 13–18 of the script: the existence check on the benchmark path
only, then `json.loads(benchmark_path.read_text())` and
`json.loads(thresholds_path.read_text())` in that order.  A missing
thresholds file raises `FileNotFoundError` from `read_text`; malformed
content raises `json.JSONDecodeError`; neither is caught. -/
def runWithPaths (bpath tpath : String) (fs : FileSys) : Outcome :=
  match lookupFile fs bpath with
  | none => Outcome.exited 2 ["Benchmark report not found: " ++ bpath]
  | some FileContent.malformed => Outcome.raised PyError.parseError []
  | some (FileContent.wellFormed report) =>
      match lookupFile fs tpath with
      | none => Outcome.raised PyError.fileNotFound []
      | some FileContent.malformed => Outcome.raised PyError.parseError []
      | some (FileContent.wellFormed thresholds) => runGate report thresholds

/-- The whole script.  `args` is `sys.argv[1:]`; `len(sys.argv) != 3`
is `args.length ≠ 2`, handled before any file is touched. -/
def runScript (args : List String) (fs : FileSys) : Outcome :=
  match args with
  | [bpath, tpath] => runWithPaths bpath tpath fs
  | _ =>
      Outcome.exited 2
        ["Usage: check_perf_regressions.py <benchmark_json> <thresholds_json>"]

/-- Maximum of a list of rationals, `none` on the empty list. -/
def maxVals : List ℚ → Option ℚ
  | [] => none
  | v :: vs =>
      match maxVals vs with
      | none => some v
      | some m => some (max v m)

/-- Join of two optional maxima. -/
def maxOpt : Option ℚ → Option ℚ → Option ℚ
  | none, b => b
  | some a, none => some a
  | some a, some b => some (max a b)

/-- The accumulator after folding the `max(acc or 0, v)` update over a
list of contributions `l`, starting from `acc`. -/
def accMax (acc : Option ℚ) (l : List ℚ) : Option ℚ :=
  match maxVals l with
  | none => acc
  | some m => some (max (acc.getD 0) m)

/-- The values the `frame_p95` update sees, one per entry whose
`frameDurationCpuMs` metric is a dict: its `P95` field, defaulting to 0. -/
def frameVals (bs : List Benchmark) : List ℚ :=
  bs.filterMap (fun b =>
    match lookupMetric b.metrics "frameDurationCpuMs" with
    | some (MetricVal.dict p) => some (p.getD 0)
    | _ => none)

/-- The values the inner loop's `recompose_p95` update sees in one
entry's metrics mapping: the `P95` field (defaulting to 0) of every dict
value whose key contains `compose:recompose`. -/
def metricRecomposeVals (ms : List (String × MetricVal)) : List ℚ :=
  ms.filterMap (fun kv =>
    match kv.2 with
    | MetricVal.dict p =>
        if strContains "compose:recompose" kv.1 then some (p.getD 0)
        else none
    | MetricVal.nonDict => none)

/-- All recomposition contributions across all entries, in scan order. -/
def recomposeVals (bs : List Benchmark) : List ℚ :=
  bs.flatMap (fun b => metricRecomposeVals b.metrics)

/-- The claim's reading of `frame_p95`: the `P95` fields actually present
on `frameDurationCpuMs` dict metrics — an entry lacking the metric, or
whose metric dict lacks a `P95` field, contributes nothing. -/
def specFrameVals (bs : List Benchmark) : List ℚ :=
  bs.filterMap (fun b =>
    match lookupMetric b.metrics "frameDurationCpuMs" with
    | some (MetricVal.dict (some v)) => some v
    | _ => none)

/-- The claim's `frame_p95`: the true maximum of those `P95` fields. -/
def specFrameP95 (bs : List Benchmark) : Option ℚ :=
  maxVals (specFrameVals bs)

/-- The claim's reading of `recompose_p95`'s contributions: the `P95`
fields present on dict metrics whose name contains `compose:recompose`. -/
def specRecomposeVals (bs : List Benchmark) : List ℚ :=
  bs.flatMap (fun b =>
    b.metrics.filterMap (fun kv =>
      match kv.2 with
      | MetricVal.dict (some v) =>
          if strContains "compose:recompose" kv.1 then some v else none
      | _ => none))

/-- The claim's `recompose_p95`: the true maximum of those fields. -/
def specRecomposeP95 (bs : List Benchmark) : Option ℚ :=
  maxVals (specRecomposeVals bs)

lemma maxVals_append (l₁ l₂ : List ℚ) :
    maxVals (l₁ ++ l₂) = maxOpt (maxVals l₁) (maxVals l₂) := by
  induction l₁ with
  | nil => cases h : maxVals l₂ <;> simp [maxVals, maxOpt, h]
  | cons v vs ih =>
      rw [List.cons_append, maxVals, ih, maxVals]
      cases hv : maxVals vs <;> cases hl : maxVals l₂ <;>
        simp [maxOpt, max_assoc]

lemma accMax_append (acc : Option ℚ) (l₁ l₂ : List ℚ) :
    accMax acc (l₁ ++ l₂) = accMax (accMax acc l₁) l₂ := by
  simp only [accMax, maxVals_append]
  cases h₁ : maxVals l₁ <;> cases h₂ : maxVals l₂ <;>
    simp [maxOpt, max_assoc]

lemma accMax_cons (acc : Option ℚ) (v : ℚ) (l : List ℚ) :
    accMax acc (v :: l) = accMax (some (max (acc.getD 0) v)) l := by
  rw [accMax, maxVals, accMax]
  cases h : maxVals l <;> simp [max_assoc]

lemma stepFrame_foldl (bs : List Benchmark) (acc : Option ℚ) :
    bs.foldl stepFrame acc = accMax acc (frameVals bs) := by
  induction bs generalizing acc with
  | nil => rfl
  | cons b bs ih =>
      cases h : lookupMetric b.metrics "frameDurationCpuMs" with
      | none => simp [stepFrame, frameVals, h, ih, List.filterMap_cons]
      | some mv =>
          cases mv with
          | nonDict => simp [stepFrame, frameVals, h, ih, List.filterMap_cons]
          | dict p =>
              simp only [List.foldl_cons, stepFrame, h, ih, frameVals,
                List.filterMap_cons]
              rw [accMax_cons]

lemma stepMetric_foldl (ms : List (String × MetricVal)) (acc : Option ℚ) :
    ms.foldl stepMetric acc = accMax acc (metricRecomposeVals ms) := by
  induction ms generalizing acc with
  | nil => rfl
  | cons kv ms ih =>
      cases hv : kv.2 with
      | nonDict =>
          simp [stepMetric, metricRecomposeVals, hv, ih, List.filterMap_cons]
      | dict p =>
          by_cases hk : strContains "compose:recompose" kv.1
          · simp only [List.foldl_cons, stepMetric, hv, hk, if_true, ih,
              metricRecomposeVals, List.filterMap_cons]
            rw [accMax_cons]
          · simp [stepMetric, metricRecomposeVals, hv, hk, ih,
              List.filterMap_cons]

lemma recomposeVals_cons (b : Benchmark) (bs : List Benchmark) :
    recomposeVals (b :: bs) =
      metricRecomposeVals b.metrics ++ recomposeVals bs := by
  rw [recomposeVals, List.flatMap_cons]
  rfl

lemma stepRecompose_foldl (bs : List Benchmark) (acc : Option ℚ) :
    bs.foldl stepRecompose acc = accMax acc (recomposeVals bs) := by
  induction bs generalizing acc with
  | nil => rfl
  | cons b bs ih =>
      rw [List.foldl_cons, ih, recomposeVals_cons, accMax_append,
        stepRecompose, stepMetric_foldl]

lemma accMax_none (l : List ℚ) :
    accMax none l = (maxVals l).map (fun m => max 0 m) := by
  cases h : maxVals l <;> simp [accMax, h]

lemma computeP95s_eq (bs : List Benchmark) :
    computeP95s bs =
      (accMax none (frameVals bs), accMax none (recomposeVals bs)) := by
  have h : ∀ a₁ a₂ : Option ℚ,
      bs.foldl (fun acc b => (stepFrame acc.1 b, stepRecompose acc.2 b))
        (a₁, a₂) = (bs.foldl stepFrame a₁, bs.foldl stepRecompose a₂) := by
    induction bs with
    | nil => intro a₁ a₂; rfl
    | cons b bs ih => intro a₁ a₂; simp only [List.foldl_cons, ih]
  simp only [computeP95s, h, stepFrame_foldl, stepRecompose_foldl]

/-- A report entry whose `frameDurationCpuMs` metric has `P95 = -5`. -/
def negFrameEntry : Benchmark :=
  ⟨[("frameDurationCpuMs", MetricVal.dict (some (-5)))]⟩

/-- A report entry with a `compose:recompose` metric with `P95 = -3`. -/
def negRecomposeEntry : Benchmark :=
  ⟨[("compose:recomposeSkippedCount", MetricVal.dict (some (-3)))]⟩

/-- Two entries whose `frameDurationCpuMs` metrics have `P95` 3 and 7. -/
def twoFrameEntries : List Benchmark :=
  [⟨[("frameDurationCpuMs", MetricVal.dict (some 3))]⟩,
   ⟨[("frameDurationCpuMs", MetricVal.dict (some 7))]⟩]

/-- Two entries carrying `compose:recompose` metrics with `P95` 3 and 7
(and a `frameDurationCpuMs` metric each, in scan order). -/
def twoRecomposeEntries : List Benchmark :=
  [⟨[("frameDurationCpuMs", MetricVal.dict (some 1)),
     ("compose:recomposeCount", MetricVal.dict (some 3))]⟩,
   ⟨[("compose:recomposeCount", MetricVal.dict (some 7))]⟩]

/-- C1, counterexample.  On the one-entry report whose
`frameDurationCpuMs.P95` is `-5`, the loop computes
`max(None or 0, -5.0) = 0.0`, not the true maximum `-5`: the claim that
`frame_p95` equals the maximum of the `P95` fields fails for negative
values because of the `frame_p95 or 0` clamp on line 32. -/
theorem frame_p95_claim_cex :
    (computeP95s [negFrameEntry]).1 = some 0 ∧
    specFrameP95 [negFrameEntry] = some (-5) ∧
    (computeP95s [negFrameEntry]).1 ≠ specFrameP95 [negFrameEntry] := by
  decide

/-- C1, amended.  For every report with a non-empty entry sequence,
`frame_p95` is defined exactly when some entry's `frameDurationCpuMs`
metric is a mapping, and then equals the maximum of the `P95` fields of
those mappings (a mapping lacking `P95` contributing 0) clamped below at
0 — the true maximum only when that maximum is non-negative. -/
theorem frame_p95_clamped_max (bs : List Benchmark) (_hne : bs ≠ []) :
    (computeP95s bs).1 = (maxVals (frameVals bs)).map (fun m => max 0 m) := by
  simp only [computeP95s_eq, accMax_none]

/-- Witness for `frame_p95_clamped_max` at the two-entry report with
`P95` values 3 and 7. -/
theorem frame_p95_clamped_max_witness :
    twoFrameEntries ≠ [] ∧
      (computeP95s twoFrameEntries).1 =
        (maxVals (frameVals twoFrameEntries)).map (fun m => max 0 m) :=
  ⟨by decide, frame_p95_clamped_max twoFrameEntries (by decide)⟩

/-- C3, counterexample.  On the one-entry report whose only
`compose:recompose` metric has `P95 = -3`, the loop computes
`max(None or 0, -3.0) = 0.0`, not the true maximum `-3`: the claim that
`recompose_p95` equals the maximum of the matching `P95` fields fails
for negative values because of the `recompose_p95 or 0` clamp on
line 36. -/
theorem recompose_p95_claim_cex :
    (computeP95s [negRecomposeEntry]).2 = some 0 ∧
    specRecomposeP95 [negRecomposeEntry] = some (-3) ∧
    (computeP95s [negRecomposeEntry]).2 ≠
      specRecomposeP95 [negRecomposeEntry] := by
  decide

/-- C3, amended.  For every report, `recompose_p95` is defined exactly
when some entry carries a dict metric whose name contains
`compose:recompose`, and then equals the maximum of their `P95` fields
(a mapping lacking `P95` contributing 0) clamped below at 0 — the true
maximum only when that maximum is non-negative.  In particular, on the
two-entry report with matching `P95` values 3 and 7 it is 7, the maximum
across entries. -/
theorem recompose_p95_clamped_max :
    (∀ bs : List Benchmark,
        (computeP95s bs).2 =
          (maxVals (recomposeVals bs)).map (fun m => max 0 m)) ∧
      (computeP95s twoRecomposeEntries).2 = some 7 := by
  constructor
  · intro bs
    simp only [computeP95s_eq, accMax_none]
  · decide

lemma runScript_wellFormed (bp tp : String) (fs : FileSys)
    (report thresholds : JsonDoc)
    (hb : lookupFile fs bp = some (FileContent.wellFormed report))
    (ht : lookupFile fs tp = some (FileContent.wellFormed thresholds)) :
    runScript [bp, tp] fs = runGate report thresholds := by
  simp [runScript, runWithPaths, hb, ht]

lemma benchmarks_not_isEmpty (report : JsonDoc) (f r : ℚ)
    (hc : computeP95s (report.benchmarks.getD []) = (some f, some r)) :
    (report.benchmarks.getD []).isEmpty = false := by
  cases h : report.benchmarks.getD [] with
  | nil => rw [h] at hc; simp [computeP95s] at hc
  | cons a l => rfl

/-- C2.  When both metrics and both threshold keys are present, the
frame-time check runs first: if `frame_p95` exceeds its threshold the
script prints "Frame-time regression detected" and exits 1 regardless of
the recomposition value (first conjunct, with no assumption on `r`);
otherwise, if `recompose_p95` exceeds its threshold, it prints
"Recomposition-count regression detected" and exits 1. -/
theorem frame_check_before_recompose (bp tp : String) (fs : FileSys)
    (report thresholds : JsonDoc) (f r ft rt : ℚ)
    (hb : lookupFile fs bp = some (FileContent.wellFormed report))
    (ht : lookupFile fs tp = some (FileContent.wellFormed thresholds))
    (hc : computeP95s (report.benchmarks.getD []) = (some f, some r))
    (hft : thresholds.frameDurationCpuMsP95 = some ft)
    (hrt : thresholds.recompositionCountP95 = some rt) :
    (f > ft →
      runScript [bp, tp] fs =
        Outcome.exited 1
          ["frameDurationCpuMs P95 = " ++ pyFloatStr f,
           "recomposition P95 = " ++ pyFloatStr r,
           "Frame-time regression detected"]) ∧
    (f ≤ ft → r > rt →
      runScript [bp, tp] fs =
        Outcome.exited 1
          ["frameDurationCpuMs P95 = " ++ pyFloatStr f,
           "recomposition P95 = " ++ pyFloatStr r,
           "Recomposition-count regression detected"]) := by
  have hne := benchmarks_not_isEmpty report f r hc
  have hrun := runScript_wellFormed bp tp fs report thresholds hb ht
  constructor
  · intro hgt
    rw [hrun]
    simp [runGate, hne, hc, hft, hgt]
  · intro hle hgt
    rw [hrun]
    simp [runGate, hne, hc, hft, hrt, not_lt.mpr hle, hgt]

/-- C4.  If after scanning all (non-empty) entries either accumulator is
still `None`, the script prints the missing-metrics message and exits 2;
the thresholds document is arbitrary (its keys may even be absent), so
no threshold comparison takes part in this outcome. -/
theorem missing_metrics_exit2 (bp tp : String) (fs : FileSys)
    (report thresholds : JsonDoc)
    (hb : lookupFile fs bp = some (FileContent.wellFormed report))
    (ht : lookupFile fs tp = some (FileContent.wellFormed thresholds))
    (hne : report.benchmarks.getD [] ≠ [])
    (hmiss : (computeP95s (report.benchmarks.getD [])).1 = none ∨
             (computeP95s (report.benchmarks.getD [])).2 = none) :
    runScript [bp, tp] fs =
      Outcome.exited 2
        ["Missing required metrics (frameDurationCpuMs or compose:recompose)"] := by
  have hne' : (report.benchmarks.getD []).isEmpty = false := by
    cases h : report.benchmarks.getD [] with
    | nil => exact absurd h hne
    | cons a l => rfl
  rw [runScript_wellFormed bp tp fs report thresholds hb ht]
  cases hp : computeP95s (report.benchmarks.getD []) with
  | mk o₁ o₂ =>
      rw [hp] at hmiss
      rcases hmiss with h | h
      · simp only at h
        subst h
        simp [runGate, hne', hp]
      · simp only at h
        subst h
        cases o₁ with
        | none => simp [runGate, hne', hp]
        | some v => simp [runGate, hne', hp]

/-- C5.  When both metrics are defined and neither exceeds its
threshold, the script prints the two values labeled exactly
`frameDurationCpuMs P95 = <value>` and `recomposition P95 = <value>`,
then "Performance gate passed", and exits 0 (falling off the end of the
script). -/
theorem gate_passed_output (bp tp : String) (fs : FileSys)
    (report thresholds : JsonDoc) (f r ft rt : ℚ)
    (hb : lookupFile fs bp = some (FileContent.wellFormed report))
    (ht : lookupFile fs tp = some (FileContent.wellFormed thresholds))
    (hc : computeP95s (report.benchmarks.getD []) = (some f, some r))
    (hft : thresholds.frameDurationCpuMsP95 = some ft)
    (hrt : thresholds.recompositionCountP95 = some rt)
    (hf : f ≤ ft) (hr : r ≤ rt) :
    runScript [bp, tp] fs =
      Outcome.exited 0
        ["frameDurationCpuMs P95 = " ++ pyFloatStr f,
         "recomposition P95 = " ++ pyFloatStr r,
         "Performance gate passed"] := by
  have hne := benchmarks_not_isEmpty report f r hc
  rw [runScript_wellFormed bp tp fs report thresholds hb ht]
  simp [runGate, hne, hc, hft, hrt, not_lt.mpr hf, not_lt.mpr hr]

/-- C6.  An empty `benchmarks` sequence exits 2 with "No benchmark
entries found"; the thresholds document is arbitrary and no metric value
occurs in the outcome. -/
theorem no_benchmark_entries_exit2 (bp tp : String) (fs : FileSys)
    (report thresholds : JsonDoc)
    (hb : lookupFile fs bp = some (FileContent.wellFormed report))
    (ht : lookupFile fs tp = some (FileContent.wellFormed thresholds))
    (hempty : report.benchmarks = some []) :
    runScript [bp, tp] fs =
      Outcome.exited 2 ["No benchmark entries found"] := by
  rw [runScript_wellFormed bp tp fs report thresholds hb ht]
  simp [runGate, hempty]

/-- C7.  Any argument count other than two prints the usage message and
exits 2, for every file system — no file is consulted. -/
theorem wrong_arg_count_usage (args : List String) (fs : FileSys)
    (h : args.length ≠ 2) :
    runScript args fs =
      Outcome.exited 2
        ["Usage: check_perf_regressions.py <benchmark_json> <thresholds_json>"] := by
  match args with
  | [] => rfl
  | [_] => rfl
  | [_, _] => exact absurd rfl h
  | _ :: _ :: _ :: _ => rfl

/-- C8.  Malformed structured content in either input file makes
`json.loads` raise; the script catches nothing, prints nothing, and none
of the exit-code-0/1/2 paths is taken: the outcome is the propagated
exception with empty output.  (A malformed report is hit first, at
line 17; a malformed thresholds file is hit at line 18 after the report
parsed.) -/
theorem malformed_json_raises (bp tp : String) (fs : FileSys)
    (report : JsonDoc) :
    (lookupFile fs bp = some FileContent.malformed →
      runScript [bp, tp] fs = Outcome.raised PyError.parseError []) ∧
    (lookupFile fs bp = some (FileContent.wellFormed report) →
      lookupFile fs tp = some FileContent.malformed →
      runScript [bp, tp] fs = Outcome.raised PyError.parseError []) := by
  constructor
  · intro hb
    simp [runScript, runWithPaths, hb]
  · intro hb ht
    simp [runScript, runWithPaths, hb, ht]

/-- C9.  The comparisons on lines 45 and 49 are strict: when each
computed metric exactly equals its threshold, neither regression fires
and the script prints "Performance gate passed" and exits 0. -/
theorem equal_thresholds_pass (bp tp : String) (fs : FileSys)
    (report thresholds : JsonDoc) (f r : ℚ)
    (hb : lookupFile fs bp = some (FileContent.wellFormed report))
    (ht : lookupFile fs tp = some (FileContent.wellFormed thresholds))
    (hc : computeP95s (report.benchmarks.getD []) = (some f, some r))
    (hft : thresholds.frameDurationCpuMsP95 = some f)
    (hrt : thresholds.recompositionCountP95 = some r) :
    runScript [bp, tp] fs =
      Outcome.exited 0
        ["frameDurationCpuMs P95 = " ++ pyFloatStr f,
         "recomposition P95 = " ++ pyFloatStr r,
         "Performance gate passed"] := by
  have hne := benchmarks_not_isEmpty report f r hc
  rw [runScript_wellFormed bp tp fs report thresholds hb ht]
  simp [runGate, hne, hc, hft, hrt, lt_irrefl]

/-- C10.  Only the benchmark path gets an existence check (line 13).
With the benchmark file present and parsable and the thresholds file
absent, `thresholds_path.read_text()` raises `FileNotFoundError`:
nothing is printed, no "not found" message appears, and no exit-2 path
is taken. -/
theorem thresholds_missing_file_raises (bp tp : String) (fs : FileSys)
    (report : JsonDoc)
    (hb : lookupFile fs bp = some (FileContent.wellFormed report))
    (ht : lookupFile fs tp = none) :
    runScript [bp, tp] fs = Outcome.raised PyError.fileNotFound [] := by
  simp [runScript, runWithPaths, hb, ht]

/-- The spec's §8 sample report: one entry with
`frameDurationCpuMs.P95 = 10` and a `compose:recompose` metric with
`P95 = 5`. -/
def sampleReport : JsonDoc :=
  ⟨some [⟨[("frameDurationCpuMs", MetricVal.dict (some 10)),
           ("compose:recomposeCount", MetricVal.dict (some 5))]⟩],
   none, none⟩

/-- Thresholds `{frameDurationCpuMsP95: 20, recompositionCountP95: 20}`. -/
def limits20 : JsonDoc := ⟨none, some 20, some 20⟩

/-- Thresholds both exceeded by `sampleReport` (frame 10 > 5, rec 5 > 4). -/
def limitsBoth : JsonDoc := ⟨none, some 5, some 4⟩

/-- Thresholds matching `sampleReport`'s computed values exactly. -/
def limitsExact : JsonDoc := ⟨none, some 10, some 5⟩

/-- A report whose `benchmarks` sequence is empty. -/
def emptyReport : JsonDoc := ⟨some [], none, none⟩

/-- A report with one entry and no relevant metric at all. -/
def noMetricsReport : JsonDoc :=
  ⟨some [⟨[("totalRunTimeNs", MetricVal.dict (some 1))]⟩], none, none⟩

/-- A file system holding each sample file under its own path. -/
def sampleFs : FileSys :=
  [("bench.json", FileContent.wellFormed sampleReport),
   ("limits20.json", FileContent.wellFormed limits20),
   ("limitsBoth.json", FileContent.wellFormed limitsBoth),
   ("limitsExact.json", FileContent.wellFormed limitsExact),
   ("empty.json", FileContent.wellFormed emptyReport),
   ("nometrics.json", FileContent.wellFormed noMetricsReport),
   ("broken.json", FileContent.malformed)]

/-- Witness for `frame_check_before_recompose`: with thresholds 5 and 4
both exceeded (frame 10, recomposition 5), the frame-time regression is
the one reported. -/
theorem frame_check_before_recompose_witness :
    (10 : ℚ) > 5 ∧
      runScript ["bench.json", "limitsBoth.json"] sampleFs =
        Outcome.exited 1
          ["frameDurationCpuMs P95 = " ++ pyFloatStr 10,
           "recomposition P95 = " ++ pyFloatStr 5,
           "Frame-time regression detected"] :=
  ⟨by decide,
   (frame_check_before_recompose "bench.json" "limitsBoth.json" sampleFs
      sampleReport limitsBoth 10 5 5 4 (by decide) (by decide) (by decide)
      rfl rfl).1 (by decide)⟩

/-- Witness for `missing_metrics_exit2` at the report with no relevant
metric. -/
theorem missing_metrics_exit2_witness :
    runScript ["nometrics.json", "limits20.json"] sampleFs =
      Outcome.exited 2
        ["Missing required metrics (frameDurationCpuMs or compose:recompose)"] :=
  missing_metrics_exit2 "nometrics.json" "limits20.json" sampleFs
    noMetricsReport limits20 (by decide) (by decide) (by decide)
    (Or.inl (by decide))

/-- Witness for `gate_passed_output` at the spec's §8 passing example. -/
theorem gate_passed_output_witness :
    runScript ["bench.json", "limits20.json"] sampleFs =
      Outcome.exited 0
        ["frameDurationCpuMs P95 = " ++ pyFloatStr 10,
         "recomposition P95 = " ++ pyFloatStr 5,
         "Performance gate passed"] :=
  gate_passed_output "bench.json" "limits20.json" sampleFs sampleReport
    limits20 10 5 20 20 (by decide) (by decide) (by decide) rfl rfl
    (by decide) (by decide)

/-- Witness for `no_benchmark_entries_exit2` at the empty report. -/
theorem no_benchmark_entries_exit2_witness :
    runScript ["empty.json", "limits20.json"] sampleFs =
      Outcome.exited 2 ["No benchmark entries found"] :=
  no_benchmark_entries_exit2 "empty.json" "limits20.json" sampleFs
    emptyReport limits20 (by decide) (by decide) rfl

/-- Witness for `wrong_arg_count_usage` at the zero-argument call. -/
theorem wrong_arg_count_usage_witness :
    ([] : List String).length ≠ 2 ∧
      runScript [] sampleFs =
        Outcome.exited 2
          ["Usage: check_perf_regressions.py <benchmark_json> <thresholds_json>"] :=
  ⟨by decide, wrong_arg_count_usage [] sampleFs (by decide)⟩

/-- Witness for `malformed_json_raises`: a malformed benchmark file, and
a well-formed benchmark file paired with a malformed thresholds file. -/
theorem malformed_json_raises_witness :
    runScript ["broken.json", "limits20.json"] sampleFs =
        Outcome.raised PyError.parseError [] ∧
      runScript ["bench.json", "broken.json"] sampleFs =
        Outcome.raised PyError.parseError [] :=
  ⟨(malformed_json_raises "broken.json" "limits20.json" sampleFs
      sampleReport).1 (by decide),
   (malformed_json_raises "bench.json" "broken.json" sampleFs
      sampleReport).2 (by decide) (by decide)⟩

/-- Witness for `equal_thresholds_pass` at thresholds exactly 10 and 5. -/
theorem equal_thresholds_pass_witness :
    runScript ["bench.json", "limitsExact.json"] sampleFs =
      Outcome.exited 0
        ["frameDurationCpuMs P95 = " ++ pyFloatStr 10,
         "recomposition P95 = " ++ pyFloatStr 5,
         "Performance gate passed"] :=
  equal_thresholds_pass "bench.json" "limitsExact.json" sampleFs
    sampleReport limitsExact 10 5 (by decide) (by decide) (by decide)
    rfl rfl

/-- Witness for `thresholds_missing_file_raises` at a path absent from
the file system. -/
theorem thresholds_missing_file_raises_witness :
    runScript ["bench.json", "absent.json"] sampleFs =
      Outcome.raised PyError.fileNotFound [] :=
  thresholds_missing_file_raises "bench.json" "absent.json" sampleFs
    sampleReport (by decide) (by decide)

end CheckPerfRegressions
